import Mathlib

/-!
Verification of the shelly-ontime-logger polling engine.

The Python source (`shelly_cloud_logger.py`) is shallow-embedded here:
JSON/YAML values and Python dicts are modelled by the inductive `JVal`,
fallible Python evaluation by `PyM` (`Except PyErr`), floats by `ℚ`.
Each primitive (`pyGetD` for `dict.get`, `pyContains` for `in`, `pyFloat`
for `float(...)`, ...) follows Python semantics for the value shapes the
program can encounter; the only deliberate simplification is that
`float(s)` on a string is modelled as an error (the program never feeds
numeric strings to `float`, and no claim below depends on that case).
-/

inductive PyErr where
  | typeError
  | valueError
  | attributeError
  | keyError
  | indexError
  | ioError
deriving DecidableEq, Repr

abbrev PyM (α : Type) : Type := Except PyErr α

def PyM.bind {α β : Type} (x : PyM α) (f : α → PyM β) : PyM β :=
  match x with
  | .error e => .error e
  | .ok a => f a

@[simp] theorem PyM.bind_ok {α β : Type} (a : α) (f : α → PyM β) :
    PyM.bind (.ok a) f = f a := rfl

@[simp] theorem PyM.bind_error {α β : Type} (e : PyErr) (f : α → PyM β) :
    PyM.bind (.error e) f = .error e := rfl

theorem PyM.bind_eq_ok {α β : Type} {x : PyM α} {f : α → PyM β} {b : β} :
    PyM.bind x f = .ok b ↔ ∃ a, x = .ok a ∧ f a = .ok b := by
  cases x <;> simp [PyM.bind]

/-- JSON-like values: the payloads, configuration dicts and field values
the Python program manipulates.  Objects are insertion-ordered
association lists, as Python dicts are. -/
inductive JVal where
  | null
  | bool (b : Bool)
  | int (n : ℤ)
  | float (q : ℚ)
  | str (s : String)
  | arr (elems : List JVal)
  | obj (entries : List (String × JVal))

/-- First-match lookup in an ordered association list (Python dict keys
are unique, so first match is the dict lookup). -/
def objLookup : List (String × JVal) → String → Option JVal
  | [], _ => none
  | (k', v) :: rest, k => if k' = k then some v else objLookup rest k

/-- Python `d[k] = v`: replace in place when the key exists (keeping its
position), else append at the end. -/
def objSet : List (String × JVal) → String → JVal → List (String × JVal)
  | [], k, v => [(k, v)]
  | (k', v') :: rest, k, v =>
    if k' = k then (k, v) :: rest else (k', v') :: objSet rest k v

/-- Keep only the entries whose key belongs to `ks` (used to state the
first-match-wins property of the normalizer). -/
def filterKeys (kvs : List (String × JVal)) (ks : List String) :
    List (String × JVal) :=
  kvs.filter fun p => decide (p.1 ∈ ks)

/-- Python truthiness for the value shapes we model. -/
def JVal.truthy : JVal → Bool
  | .null => false
  | .bool b => b
  | .int n => n != 0
  | .float q => q != 0
  | .str s => s != ""
  | .arr xs => !xs.isEmpty
  | .obj kvs => !kvs.isEmpty

/-- `x is None` (our `.get(k)` with no default returns `.null` both for a
missing key and for an explicit JSON null, exactly as Python's
`dict.get` returns `None` in both cases). -/
def JVal.isNull : JVal → Bool
  | .null => true
  | _ => false

/-- Python `x == 1` with `1` an int literal: ints and floats compare
numerically, `True == 1` holds, everything else is unequal. -/
def pyEqOne : JVal → Bool
  | .int n => n = 1
  | .float q => q = 1
  | .bool b => b
  | _ => false

/-- Python `x == "lit"`: only equal strings compare equal. -/
def pyEqStr (v : JVal) (s : String) : Bool :=
  match v with
  | .str t => t = s
  | _ => false

/-- Numeric view used by `<` and `float(...)`: ints, floats, bools. -/
def pyNumQ : JVal → Option ℚ
  | .int n => some (n : ℚ)
  | .float q => some q
  | .bool b => some (if b then 1 else 0)
  | _ => none

/-- Python `str(x)` as used in the f-string `f"switch:{channel}"`.
`channel` is an int in every configuration the program documents; the
container renderings are placeholders (no claim depends on them). -/
def pyStr : JVal → String
  | .null => "None"
  | .bool b => if b then "True" else "False"
  | .int n => toString n
  | .float q => toString q
  | .str s => s
  | .arr _ => "[...]"
  | .obj _ => "{...}"

/-- Python `float(x)`: numbers and bools convert, `None` and containers
raise `TypeError`, non-numeric strings raise `ValueError`. -/
def pyFloat : JVal → PyM ℚ
  | .int n => .ok (n : ℚ)
  | .float q => .ok q
  | .bool b => .ok (if b then 1 else 0)
  | .str _ => .error .valueError
  | _ => .error .typeError

/-- Python `len(x)`. -/
def pyLen : JVal → PyM ℤ
  | .arr xs => .ok xs.length
  | .obj kvs => .ok kvs.length
  | .str s => .ok s.length
  | _ => .error .typeError

/-- Python `x < n` against an int: numeric comparison, `TypeError` for
non-numeric `x`. -/
def pyLtInt (v : JVal) (n : ℤ) : PyM Bool :=
  match pyNumQ v with
  | some q => .ok (decide (q < (n : ℚ)))
  | none => .error .typeError

/-- Python `d.get(k, default)`: only dicts have `.get`. -/
def pyGetD (v : JVal) (k : String) (d : JVal) : PyM JVal :=
  match v with
  | .obj kvs => .ok ((objLookup kvs k).getD d)
  | _ => .error .attributeError

/-- Python `d.get(k)` (default `None`). -/
def pyGetOpt (v : JVal) (k : String) : PyM JVal := pyGetD v k .null

/-- Python `k in v` for a string `k`: dict key test, list membership
(by `==`), substring test on strings, `TypeError` otherwise. -/
def pyContains (v : JVal) (k : String) : PyM Bool :=
  match v with
  | .obj kvs => .ok (objLookup kvs k).isSome
  | .arr xs => .ok (xs.any fun e => pyEqStr e k)
  | .str s => .ok (((s.splitOn k).length > 1 : Bool))
  | _ => .error .typeError

/-- Python `v[k]` with a string key: dict indexing (`KeyError` when the
key is missing), `TypeError` on any other container. -/
def pyIndexStr (v : JVal) (k : String) : PyM JVal :=
  match v with
  | .obj kvs =>
    match objLookup kvs k with
    | some x => .ok x
    | none => .error .keyError
  | _ => .error .typeError

/-- Python `xs[i]` with a numeric index: ints (and bools) index lists,
negative indices wrap, floats raise `TypeError`.  Dict indexing with an
int key misses every string key (`KeyError`). -/
def pyIndex (v : JVal) (i : JVal) : PyM JVal :=
  match v, i with
  | .arr xs, .int n =>
    let m : ℤ := if n < 0 then n + xs.length else n
    if h : 0 ≤ m ∧ m.toNat < xs.length then .ok (xs.get ⟨m.toNat, h.2⟩)
    else .error .indexError
  | .arr xs, .bool b =>
    let n : Nat := if b then 1 else 0
    if h : n < xs.length then .ok (xs.get ⟨n, h⟩) else .error .indexError
  | .obj _, .int _ => .error .keyError
  | .obj _, .bool _ => .error .keyError
  | _, _ => .error .typeError

/-- Python `for x in v`: lists yield elements, strings yield characters,
dicts yield their keys, anything else raises `TypeError`. -/
def pyIter : JVal → PyM (List JVal)
  | .arr xs => .ok xs
  | .str s => .ok (s.toList.map fun c => .str (String.mk [c]))
  | .obj kvs => .ok (kvs.map fun p => .str p.1)
  | _ => .error .typeError

/-- Python `x.copy()`: dicts and lists have it, scalars do not. -/
def pyCopy : JVal → PyM JVal
  | .obj kvs => .ok (.obj kvs)
  | .arr xs => .ok (.arr xs)
  | _ => .error .attributeError

/-- Python `x[k] = v` for a string key: dict item assignment. -/
def pySetItem (x : JVal) (k : String) (v : JVal) : PyM JVal :=
  match x with
  | .obj kvs => .ok (.obj (objSet kvs k v))
  | _ => .error .typeError

/-- Python `xs.append(v)`: lists only. -/
def pyAppend (x v : JVal) : PyM JVal :=
  match x with
  | .arr xs => .ok (.arr (xs ++ [v]))
  | _ => .error .attributeError

/-- The canonical metric record built by `parse_device_status`
(source lines 90-98): `output` holds whatever value the payload carried
(the source stores it unconverted), numeric fields are floats, and
`voltage`/`current`/`temperature` are optional. -/
structure ParseResult where
  online : Bool
  output : JVal
  power : ℚ
  energy : ℚ
  voltage : Option ℚ
  current : Option ℚ
  temperature : Option ℚ

/-- The `result` dict as initialised at source lines 90-98. -/
def initResult (onl : Bool) : ParseResult :=
  { online := onl, output := .bool false, power := 0, energy := 0,
    voltage := none, current := none, temperature := none }

/-- Body of the `switch:<channel>` branch, source lines 109-128. -/
def switchBranch (sw : JVal) (r : ParseResult) : PyM ParseResult :=
  PyM.bind (pyGetD sw "output" (.bool false)) fun out =>
  PyM.bind (pyGetOpt sw "apower") fun apower =>
  PyM.bind (if apower.isNull then .ok (0 : ℚ) else pyFloat apower) fun power =>
  PyM.bind (pyGetOpt sw "voltage") fun v0 =>
  PyM.bind (if v0.isNull then .ok (none : Option ℚ)
            else PyM.bind (pyFloat v0) fun q => .ok (some q)) fun voltage =>
  PyM.bind (pyGetOpt sw "current") fun c0 =>
  PyM.bind (if c0.isNull then .ok (none : Option ℚ)
            else PyM.bind (pyFloat c0) fun q => .ok (some q)) fun current =>
  PyM.bind (pyGetD sw "aenergy" (.obj [])) fun aenergy =>
  PyM.bind (pyGetOpt aenergy "total") fun total =>
  PyM.bind (if total.isNull then .ok (0 : ℚ) else pyFloat total) fun energy =>
  PyM.bind (pyGetD sw "temperature" (.obj [])) fun tempData =>
  PyM.bind (if tempData.truthy then
      PyM.bind (pyGetOpt tempData "tC") fun tC =>
      if tC.isNull then .ok (none : Option ℚ)
      else PyM.bind (pyFloat tC) fun q => .ok (some q)
    else .ok r.temperature) fun temperature =>
  .ok { r with output := out, power := power, voltage := voltage,
               current := current, energy := energy, temperature := temperature }

/-- Body of the Gen 1 `relays`/`meters` branch, source lines 131-146. -/
def relaysBranch (st ch : JVal) (r : ParseResult) : PyM ParseResult :=
  PyM.bind (pyGetD st "relays" (.arr [])) fun relays =>
  PyM.bind (pyLen relays) fun rlen =>
  PyM.bind (pyLtInt ch rlen) fun rIn =>
  PyM.bind (if rIn then
      PyM.bind (pyIndex relays ch) fun relay =>
      pyGetD relay "ison" (.bool false)
    else .ok r.output) fun outV =>
  PyM.bind (pyGetD st "meters" (.arr [])) fun meters =>
  PyM.bind (pyLen meters) fun mlen =>
  PyM.bind (pyLtInt ch mlen) fun mIn =>
  PyM.bind (if mIn then
      PyM.bind (pyIndex meters ch) fun meter =>
      PyM.bind (pyGetD meter "power" (.float 0)) fun p =>
      PyM.bind (pyFloat p) fun power =>
      PyM.bind (pyGetD meter "total" (.float 0)) fun t =>
      PyM.bind (pyFloat t) fun energy =>
      .ok (power, energy)
    else .ok (r.power, r.energy)) fun pe =>
  PyM.bind (pyContains st "tmp") fun hasTmp =>
  PyM.bind (if hasTmp then
      PyM.bind (pyIndexStr st "tmp") fun tmp =>
      PyM.bind (pyGetOpt tmp "tC") fun tC =>
      if tC.isNull then .ok (none : Option ℚ)
      else PyM.bind (pyFloat tC) fun q => .ok (some q)
    else .ok r.temperature) fun temperature =>
  .ok { r with output := outV, power := pe.1, energy := pe.2,
               temperature := temperature }

/-- Body of the `cover:0` branch, source lines 149-153. -/
def coverBranch (cv : JVal) (r : ParseResult) : PyM ParseResult :=
  PyM.bind (pyGetD cv "state" (.str "stopped")) fun state =>
  PyM.bind (pyGetD cv "apower" (.float 0)) fun ap =>
  PyM.bind (pyFloat ap) fun power =>
  .ok { r with output := .bool (pyEqStr state "open"), power := power }

/-- Body of the `light:0` branch, source lines 156-158. -/
def lightBranch (lt : JVal) (r : ParseResult) : PyM ParseResult :=
  PyM.bind (pyGetD lt "output" (.bool false)) fun out =>
  .ok { r with output := out }

/-- `parse_device_status` (source lines 82-160), threading both input
maps through to the result so that the frame property (the function
mutates neither input) is expressible: every exit returns the raw
payload and device configuration exactly as received, since the source
only ever reads from them. -/
def parse_device_status_frame (device_status device_config : JVal) :
    PyM (Option ParseResult × JVal × JVal) :=
  if ¬device_status.truthy then .ok (none, device_status, device_config)
  else
    PyM.bind (pyGetD device_status "online" (.int 0)) fun onlineV =>
    PyM.bind (pyGetD device_status "status" (.obj [])) fun st =>
    PyM.bind (pyGetD device_config "channel" (.int 0)) fun ch =>
    PyM.bind (pyContains st ("switch:" ++ pyStr ch)) fun b1 =>
    if b1 then
      PyM.bind (pyIndexStr st ("switch:" ++ pyStr ch)) fun sw =>
      PyM.bind (switchBranch sw (initResult (pyEqOne onlineV))) fun r =>
      .ok (some r, device_status, device_config)
    else
      PyM.bind (pyContains st "relays") fun b2 =>
      if b2 then
        PyM.bind (relaysBranch st ch (initResult (pyEqOne onlineV))) fun r =>
        .ok (some r, device_status, device_config)
      else
        PyM.bind (pyContains st "cover:0") fun b3 =>
        if b3 then
          PyM.bind (pyIndexStr st "cover:0") fun cv =>
          PyM.bind (coverBranch cv (initResult (pyEqOne onlineV))) fun r =>
          .ok (some r, device_status, device_config)
        else
          PyM.bind (pyContains st "light:0") fun b4 =>
          if b4 then
            PyM.bind (pyIndexStr st "light:0") fun lt =>
            PyM.bind (lightBranch lt (initResult (pyEqOne onlineV))) fun r =>
            .ok (some r, device_status, device_config)
          else .ok (some (initResult (pyEqOne onlineV)), device_status, device_config)

/-- The value-level view of the normalizer: `None` (here `.ok none`) for
a falsy payload, a `ParseResult` on success, a raised exception as
`.error`. -/
def parse_device_status (device_status device_config : JVal) :
    PyM (Option ParseResult) :=
  PyM.bind (parse_device_status_frame device_status device_config) fun t => .ok t.1

/-- A time-series point as built at source lines 175-181 and 194-213:
measurement name, tag list, field list (the timestamp, always the
capture time, carries no information the claims test). -/
structure Point where
  measurement : String
  tags : List (String × JVal)
  fields : List (String × JVal)

/-- The offline point built when the fetch failed, source lines 175-181. -/
def mkOfflinePoint (dname did dtype : JVal) : Point :=
  { measurement := "shelly_status",
    tags := [("device", dname), ("device_id", did), ("type", dtype)],
    fields := [("online", .bool false), ("cloud_accessible", .bool false)] }

/-- The success point built at source lines 194-211: six unconditional
fields, then `voltage`/`current`/`temperature` appended only when the
corresponding optional is present. -/
def mkSuccessPoint (dname did dtype : JVal) (status : ParseResult) : Point :=
  { measurement := "shelly_status",
    tags := [("device", dname), ("device_id", did), ("type", dtype)],
    fields :=
      [("online", .bool status.online),
       ("cloud_accessible", .bool true),
       ("output", status.output),
       ("output_int", .int (if status.output.truthy then 1 else 0)),
       ("power", .float status.power),
       ("energy", .float status.energy)] ++
      (match status.voltage with
       | some q => [("voltage", .float q)]
       | none => []) ++
      (match status.current with
       | some q => [("current", .float q)]
       | none => []) ++
      (match status.temperature with
       | some q => [("temperature", .float q)]
       | none => []) }

/-- One write attempt: destination bucket, point, and whether the
storage collaborator's write succeeded. -/
abbrev Emission : Type := JVal × Point × Bool

/-- `log_device_status` (source lines 162-221).  The fetch is abstracted
as a function from the device id value to `get_device_status_v2`'s
result (`none` for every transport/HTTP/empty-response failure), and
the storage write as a predicate `wOk` saying whether a given write
succeeds.  The result is the list of write attempts made for this
device, paired with the exception that escaped the call, if any:

* fetch failure: the offline point is written outside any `try`,
  so a failed write raises (source line 183);
* a falsy payload makes `parse_device_status` return `None` and the
  function returns without writing anything (source lines 189-191);
* an exception raised inside `parse_device_status` is not caught
  (source line 187);
* on a parsed status the write is wrapped in `try`/`except`, so a
  failed write is absorbed (source lines 215-221). -/
def log_device_status (fetch : JVal → Option JVal) (wOk : JVal → Point → Bool)
    (defaultBucket : JVal) (device : JVal) : List Emission × Option PyErr :=
  match pyIndexStr device "id" with
  | .error e => ([], some e)
  | .ok did =>
  match pyIndexStr device "name" with
  | .error e => ([], some e)
  | .ok dname =>
  match pyGetD device "bucket" defaultBucket with
  | .error e => ([], some e)
  | .ok bucket =>
  match fetch did with
  | none =>
    match pyGetD device "type" (.str "unknown") with
    | .error e => ([], some e)
    | .ok dtype =>
      let pt := mkOfflinePoint dname did dtype
      if wOk bucket pt then ([(bucket, pt, true)], none)
      else ([(bucket, pt, false)], some .ioError)
  | some ds =>
    match parse_device_status ds device with
    | .error e => ([], some e)
    | .ok none => ([], none)
    | .ok (some status) =>
      match pyGetD device "type" (.str "unknown") with
      | .error e => ([], some e)
      | .ok dtype =>
        let pt := mkSuccessPoint dname did dtype status
        ([(bucket, pt, wOk bucket pt)], none)

/-- `poll_all_devices` (source lines 223-230): iterate the device list
in order; an exception escaping `log_device_status` aborts the whole
loop (there is no `try` around the body). -/
def poll_all_devices (fetch : JVal → Option JVal) (wOk : JVal → Point → Bool)
    (defaultBucket : JVal) : List JVal → List Emission × Option PyErr
  | [] => ([], none)
  | d :: rest =>
    match log_device_status fetch wOk defaultBucket d with
    | (es, some e) => (es, some e)
    | (es, none) =>
      let (es', err) := poll_all_devices fetch wOk defaultBucket rest
      (es ++ es', err)

/-- The group-flattening step of `load_config` (source lines 277-291):
append a copied member device, with the group's bucket written over its
`bucket` entry whenever the group bucket is truthy, to the accumulated
`config['devices']` list. -/
def appendDevice (groupBucket : JVal) (cur device : JVal) : PyM JVal :=
  PyM.bind (pyCopy device) fun dc =>
  PyM.bind (if groupBucket.truthy then pySetItem dc "bucket" groupBucket
            else .ok dc) fun dc2 =>
  pyAppend cur dc2

/-- Processing of one group (source lines 282-289). -/
def processGroup (cur group : JVal) : PyM JVal :=
  PyM.bind (pyGetOpt group "bucket") fun groupBucket =>
  PyM.bind (pyGetD group "devices" (.arr [])) fun devs =>
  PyM.bind (pyIter devs) fun ds =>
  ds.foldlM (appendDevice groupBucket) cur

/-- The device-list resolution of `load_config` (source lines 277-291):
when `groups` is truthy, reset a falsy `devices` entry to `[]` and
append every group member to it; otherwise `config['devices']` is left
as configured.  Returns the final value of `config['devices']`. -/
def resolve_devices (config : JVal) : PyM JVal :=
  PyM.bind (pyGetOpt config "groups") fun groupsV =>
  if groupsV.truthy then
    PyM.bind (pyGetOpt config "devices") fun devicesV =>
    PyM.bind (pyIter groupsV) fun gs =>
    gs.foldlM processGroup (if devicesV.truthy then devicesV else .arr [])
  else
    pyGetOpt config "devices"

theorem objLookup_filterKeys (kvs : List (String × JVal)) (ks : List String)
    (k : String) :
    objLookup (filterKeys kvs ks) k =
      if k ∈ ks then objLookup kvs k else none := by
  induction kvs with
  | nil => simp [filterKeys, objLookup]
  | cons p rest ih =>
    obtain ⟨k', v⟩ := p
    simp only [filterKeys, List.filter_cons] at ih ⊢
    by_cases hm : k' ∈ ks
    · by_cases hk : k' = k
      · subst hk
        simp [objLookup, hm]
      · simpa [objLookup, hm, hk] using ih
    · by_cases hk : k' = k
      · subst hk
        rw [show (decide (k' ∈ ks)) = false by simp [hm]]
        simp only [Bool.false_eq_true, if_false]
        rw [ih]
        simp [hm]
      · simpa [objLookup, hm, hk] using ih

theorem switchBranch_online {sw : JVal} {r r' : ParseResult}
    (h : switchBranch sw r = .ok r') : r'.online = r.online := by
  simp only [switchBranch, PyM.bind_eq_ok] at h
  obtain ⟨o, -, a, -, p, -, v0, -, v, -, c0, -, c, -, ae, -, t0, -, e, -, td, -, t, -, hfin⟩ := h
  cases hfin
  rfl

theorem relaysBranch_online {st ch : JVal} {r r' : ParseResult}
    (h : relaysBranch st ch r = .ok r') : r'.online = r.online := by
  simp only [relaysBranch, PyM.bind_eq_ok] at h
  obtain ⟨rl, -, rlen, -, rIn, -, outV, -, m, -, mlen, -, mIn, -, pe, -, ht, -, t, -, hfin⟩ := h
  cases hfin
  rfl

theorem coverBranch_online {cv : JVal} {r r' : ParseResult}
    (h : coverBranch cv r = .ok r') : r'.online = r.online := by
  simp only [coverBranch, PyM.bind_eq_ok] at h
  obtain ⟨s, -, ap, -, p, -, hfin⟩ := h
  cases hfin
  rfl

theorem lightBranch_online {lt : JVal} {r r' : ParseResult}
    (h : lightBranch lt r = .ok r') : r'.online = r.online := by
  simp only [lightBranch, PyM.bind_eq_ok] at h
  obtain ⟨o, -, hfin⟩ := h
  cases hfin
  rfl

theorem relaysBranch_congr {s1 s2 : List (String × JVal)} (ch : JVal)
    (r : ParseResult)
    (hrel : objLookup s1 "relays" = objLookup s2 "relays")
    (hmet : objLookup s1 "meters" = objLookup s2 "meters")
    (htmp : objLookup s1 "tmp" = objLookup s2 "tmp") :
    relaysBranch (.obj s1) ch r = relaysBranch (.obj s2) ch r := by
  simp only [relaysBranch, pyGetD, pyContains, pyIndexStr, hrel, hmet, htmp]

@[simp] theorem exceptBind_ok {α β : Type} {ε : Type} (a : α)
    (f : α → Except ε β) : (Except.ok a : Except ε α) >>= f = f a := rfl

@[simp] theorem exceptPure {α : Type} {ε : Type} (a : α) :
    (pure a : Except ε α) = .ok a := rfl

/-- The bucket override the flattening actually performs on one member
device: when the group declares a truthy bucket it is written over the
member's `bucket` entry, own bucket or not. -/
def groupBucketApply (gb m : JVal) : JVal :=
  if gb.truthy then
    match m with
    | .obj mk => .obj (objSet mk "bucket" gb)
    | m' => m'
  else m

/-- The member devices one group contributes, in declared order. -/
def groupMembers (g : JVal) : List JVal :=
  match g with
  | .obj gk =>
    (match (objLookup gk "devices").getD (.arr []) with
     | .arr ms => ms
     | _ => []).map (groupBucketApply ((objLookup gk "bucket").getD .null))
  | _ => []

/-- All group members, groups in declared order. -/
def flattenGroups (gs : List JVal) : List JVal :=
  (gs.map groupMembers).flatten

/-- Well-formed group: a dict whose `devices` entry (default `[]`) is a
list of dicts. -/
def GroupWF (g : JVal) : Prop :=
  ∃ gk ms, g = .obj gk ∧ (objLookup gk "devices").getD (.arr []) = .arr ms ∧
    ∀ m ∈ ms, ∃ mk, m = .obj mk

theorem appendDevice_ok (gb : JVal) (acc : List JVal)
    (mk : List (String × JVal)) :
    appendDevice gb (.arr acc) (.obj mk) =
      .ok (.arr (acc ++ [groupBucketApply gb (.obj mk)])) := by
  unfold appendDevice groupBucketApply pyCopy pySetItem pyAppend
  by_cases hgb : gb.truthy <;> simp [hgb]

theorem foldl_appendDevice (gb : JVal) (ms : List JVal) :
    ∀ acc : List JVal, (∀ m ∈ ms, ∃ mk, m = .obj mk) →
    ms.foldlM (appendDevice gb) (.arr acc) =
      .ok (.arr (acc ++ ms.map (groupBucketApply gb))) := by
  induction ms with
  | nil => intro acc _; simp [List.foldlM]
  | cons m rest ih =>
    intro acc hwf
    obtain ⟨mk, rfl⟩ := hwf m (by simp)
    rw [List.foldlM_cons, appendDevice_ok]
    simp only [exceptBind_ok]
    rw [ih (acc ++ [groupBucketApply gb (.obj mk)])
        (fun m hm => hwf m (by simp [hm]))]
    simp

theorem processGroup_ok (acc : List JVal) (g : JVal) (h : GroupWF g) :
    processGroup (.arr acc) g = .ok (.arr (acc ++ groupMembers g)) := by
  obtain ⟨gk, ms, rfl, hdev, hms⟩ := h
  unfold processGroup
  rw [show pyGetOpt (.obj gk) "bucket" =
        .ok ((objLookup gk "bucket").getD .null) from rfl]
  simp only [PyM.bind_ok]
  rw [show pyGetD (.obj gk) "devices" (.arr []) =
        .ok ((objLookup gk "devices").getD (.arr [])) from rfl, hdev]
  simp only [PyM.bind_ok, pyIter, PyM.bind_ok]
  rw [foldl_appendDevice _ _ _ hms]
  simp [groupMembers, hdev]

theorem foldl_processGroup (gs : List JVal) :
    ∀ acc : List JVal, (∀ g ∈ gs, GroupWF g) →
    gs.foldlM processGroup (.arr acc) = .ok (.arr (acc ++ flattenGroups gs)) := by
  induction gs with
  | nil => intro acc _; simp [List.foldlM, flattenGroups]
  | cons g rest ih =>
    intro acc hwf
    rw [List.foldlM_cons, processGroup_ok acc g (hwf g (by simp))]
    simp only [exceptBind_ok]
    rw [ih (acc ++ groupMembers g) (fun g' hg => hwf g' (by simp [hg]))]
    simp [flattenGroups]

theorem obj_cons_truthy (p : String × JVal) (rest : List (String × JVal)) :
    (JVal.obj (p :: rest)).truthy = true := rfl

theorem objLookup_ne_nil {kvs : List (String × JVal)} {k : String} {v : JVal}
    (h : objLookup kvs k = some v) : kvs ≠ [] := by
  intro hnil
  subst hnil
  simp [objLookup] at h

theorem parse_obj_status_switch (rkvs skvs ckvs : List (String × JVal))
    (x : JVal)
    (hst : objLookup rkvs "status" = some (.obj skvs))
    (hx : objLookup skvs
        ("switch:" ++ pyStr ((objLookup ckvs "channel").getD (.int 0))) = some x) :
    parse_device_status (.obj rkvs) (.obj ckvs) =
      PyM.bind (switchBranch x
          (initResult (pyEqOne ((objLookup rkvs "online").getD (.int 0)))))
        (fun r => .ok (some r)) := by
  have hne := objLookup_ne_nil hst
  have htr : (JVal.obj rkvs).truthy = true := by
    cases rkvs with
    | nil => exact absurd rfl hne
    | cons p rest => rfl
  unfold parse_device_status parse_device_status_frame
  rw [htr]
  simp only [Bool.not_true, Bool.false_eq_true, if_false, pyGetD, pyContains, pyIndexStr,
    PyM.bind_ok, hst, Option.getD_some, hx, Option.isSome_some, if_true]
  cases switchBranch x (initResult (pyEqOne ((objLookup rkvs "online").getD (.int 0)))) <;> rfl

theorem parse_obj_status_relays (rkvs skvs ckvs : List (String × JVal))
    (y : JVal)
    (hst : objLookup rkvs "status" = some (.obj skvs))
    (hx : objLookup skvs
        ("switch:" ++ pyStr ((objLookup ckvs "channel").getD (.int 0))) = none)
    (hrel : objLookup skvs "relays" = some y) :
    parse_device_status (.obj rkvs) (.obj ckvs) =
      PyM.bind (relaysBranch (.obj skvs) ((objLookup ckvs "channel").getD (.int 0))
          (initResult (pyEqOne ((objLookup rkvs "online").getD (.int 0)))))
        (fun r => .ok (some r)) := by
  have hne := objLookup_ne_nil hst
  have htr : (JVal.obj rkvs).truthy = true := by
    cases rkvs with
    | nil => exact absurd rfl hne
    | cons p rest => rfl
  unfold parse_device_status parse_device_status_frame
  rw [htr]
  simp only [Bool.not_true, Bool.false_eq_true, if_false, pyGetD, pyContains, pyIndexStr,
    PyM.bind_ok, hst, Option.getD_some, hx, hrel, Option.isSome_none, Option.isSome_some,
    Bool.false_eq_true, if_false, if_true]
  cases relaysBranch (.obj skvs) ((objLookup ckvs "channel").getD (.int 0))
      (initResult (pyEqOne ((objLookup rkvs "online").getD (.int 0)))) <;> rfl

theorem parse_obj_status_cover (rkvs skvs ckvs : List (String × JVal))
    (z : JVal)
    (hst : objLookup rkvs "status" = some (.obj skvs))
    (hx : objLookup skvs
        ("switch:" ++ pyStr ((objLookup ckvs "channel").getD (.int 0))) = none)
    (hrel : objLookup skvs "relays" = none)
    (hcov : objLookup skvs "cover:0" = some z) :
    parse_device_status (.obj rkvs) (.obj ckvs) =
      PyM.bind (coverBranch z
          (initResult (pyEqOne ((objLookup rkvs "online").getD (.int 0)))))
        (fun r => .ok (some r)) := by
  have hne := objLookup_ne_nil hst
  have htr : (JVal.obj rkvs).truthy = true := by
    cases rkvs with
    | nil => exact absurd rfl hne
    | cons p rest => rfl
  unfold parse_device_status parse_device_status_frame
  rw [htr]
  simp only [Bool.not_true, Bool.false_eq_true, if_false, pyGetD, pyContains, pyIndexStr,
    PyM.bind_ok, hst, Option.getD_some, hx, hrel, hcov, Option.isSome_none,
    Option.isSome_some, if_true]
  cases coverBranch z (initResult (pyEqOne ((objLookup rkvs "online").getD (.int 0)))) <;> rfl

theorem parse_obj_status_light (rkvs skvs ckvs : List (String × JVal))
    (w : JVal)
    (hst : objLookup rkvs "status" = some (.obj skvs))
    (hx : objLookup skvs
        ("switch:" ++ pyStr ((objLookup ckvs "channel").getD (.int 0))) = none)
    (hrel : objLookup skvs "relays" = none)
    (hcov : objLookup skvs "cover:0" = none)
    (hlig : objLookup skvs "light:0" = some w) :
    parse_device_status (.obj rkvs) (.obj ckvs) =
      PyM.bind (lightBranch w
          (initResult (pyEqOne ((objLookup rkvs "online").getD (.int 0)))))
        (fun r => .ok (some r)) := by
  have hne := objLookup_ne_nil hst
  have htr : (JVal.obj rkvs).truthy = true := by
    cases rkvs with
    | nil => exact absurd rfl hne
    | cons p rest => rfl
  unfold parse_device_status parse_device_status_frame
  rw [htr]
  simp only [Bool.not_true, Bool.false_eq_true, if_false, pyGetD, pyContains, pyIndexStr,
    PyM.bind_ok, hst, Option.getD_some, hx, hrel, hcov, hlig, Option.isSome_none,
    Option.isSome_some, if_true]
  cases lightBranch w (initResult (pyEqOne ((objLookup rkvs "online").getD (.int 0)))) <;> rfl

theorem parse_obj_status_nomatch (rkvs skvs ckvs : List (String × JVal))
    (hne : rkvs ≠ [])
    (hst : (objLookup rkvs "status").getD (.obj []) = .obj skvs)
    (hx : objLookup skvs
        ("switch:" ++ pyStr ((objLookup ckvs "channel").getD (.int 0))) = none)
    (hrel : objLookup skvs "relays" = none)
    (hcov : objLookup skvs "cover:0" = none)
    (hlig : objLookup skvs "light:0" = none) :
    parse_device_status (.obj rkvs) (.obj ckvs) =
      .ok (some (initResult (pyEqOne ((objLookup rkvs "online").getD (.int 0))))) := by
  have htr : (JVal.obj rkvs).truthy = true := by
    cases rkvs with
    | nil => exact absurd rfl hne
    | cons p rest => rfl
  unfold parse_device_status parse_device_status_frame
  rw [htr]
  simp only [Bool.not_true, Bool.false_eq_true, if_false, pyGetD, pyContains, pyIndexStr,
    PyM.bind_ok, hst, hx, hrel, hcov, hlig, Option.isSome_none, if_false]
  simp [PyM.bind]

/-- Claim C2 (the code violates it): in a configuration where the group
declares bucket `g1` and its member device `A` declares its own bucket
`d1`, resolution overwrites the device bucket with the group bucket:
the resolved list carries `bucket = g1`, not the device's own `d1`. -/
theorem group_bucket_overrides_device_bucket :
    resolve_devices
      (.obj [("groups", .arr [.obj [("bucket", .str "g1"),
        ("devices", .arr [.obj [("id", .str "A"), ("bucket", .str "d1")]])]])]) =
    .ok (.arr [.obj [("id", .str "A"), ("bucket", .str "g1")]]) := rfl

/-- Claim C5 (the code violates it): a present-but-null numeric
sub-field raises `TypeError` instead of yielding the default, both for
`meters[channel].power` in the relay branch and for `apower` in the
cover branch (`float(None)` at source lines 140 and 153). -/
theorem parse_null_meter_power_raises :
    parse_device_status
      (.obj [("online", .int 1),
             ("status", .obj [("relays", .arr [.obj [("ison", .bool true)]]),
                              ("meters", .arr [.obj [("power", .null), ("total", .int 300)]])])])
      (.obj []) = .error .typeError ∧
    parse_device_status
      (.obj [("online", .int 1),
             ("status", .obj [("cover:0", .obj [("state", .str "open"), ("apower", .null)])])])
      (.obj []) = .error .typeError := ⟨rfl, rfl⟩

/-- Claim C9: normalization is deterministic — two runs of
`parse_device_status` on the same raw payload and device configuration
that both succeed yield the same canonical metric record. -/
theorem parse_deterministic (raw cfg : JVal) (r1 r2 : ParseResult)
    (h1 : parse_device_status raw cfg = .ok (some r1))
    (h2 : parse_device_status raw cfg = .ok (some r2)) : r1 = r2 := by
  rw [h1] at h2
  injection h2 with h
  injection h

theorem parse_deterministic_witness :
    { online := true, output := JVal.bool false, power := 0, energy := 0,
      voltage := none, current := none, temperature := none : ParseResult } =
    { online := true, output := JVal.bool false, power := 0, energy := 0,
      voltage := none, current := none, temperature := none : ParseResult } :=
  parse_deterministic (.obj [("online", .int 1), ("status", .obj [])]) (.obj [])
    _ _ rfl rfl

/-- Claim C8: in the success point, the `voltage`, `current` and
`temperature` fields are present exactly when the corresponding
optional of the canonical metric is present (and then carry its float
value), while `online`, `cloud_accessible`, `output`, `output_int`,
`power` and `energy` are always set. -/
theorem success_point_optional_fields (dname did dtype : JVal) (r : ParseResult) :
    objLookup (mkSuccessPoint dname did dtype r).fields "voltage"
        = r.voltage.map JVal.float ∧
    objLookup (mkSuccessPoint dname did dtype r).fields "current"
        = r.current.map JVal.float ∧
    objLookup (mkSuccessPoint dname did dtype r).fields "temperature"
        = r.temperature.map JVal.float ∧
    objLookup (mkSuccessPoint dname did dtype r).fields "online"
        = some (.bool r.online) ∧
    objLookup (mkSuccessPoint dname did dtype r).fields "cloud_accessible"
        = some (.bool true) ∧
    objLookup (mkSuccessPoint dname did dtype r).fields "output"
        = some r.output ∧
    objLookup (mkSuccessPoint dname did dtype r).fields "output_int"
        = some (.int (if r.output.truthy then 1 else 0)) ∧
    objLookup (mkSuccessPoint dname did dtype r).fields "power"
        = some (.float r.power) ∧
    objLookup (mkSuccessPoint dname did dtype r).fields "energy"
        = some (.float r.energy) := by
  obtain ⟨onl, out, pw, en, vo, cu, te⟩ := r
  rcases vo with - | qv <;> rcases cu with - | qc <;> rcases te with - | qt <;>
    exact ⟨rfl, rfl, rfl, rfl, rfl, rfl, rfl, rfl, rfl⟩

/-- Counterexample to claim C3 as stated: with flat device `B` and one
group containing device `A`, the resolved order is `[B, A]` — flat
devices first — not `[A, B]` as the claim requires. -/
theorem resolve_devices_flat_before_groups :
    resolve_devices
      (.obj [("devices", .arr [.obj [("id", .str "B")]]),
             ("groups", .arr [.obj [("bucket", .str "g1"),
               ("devices", .arr [.obj [("id", .str "A")]])]])]) =
      .ok (.arr [.obj [("id", .str "B")],
                 .obj [("id", .str "A"), ("bucket", .str "g1")]]) ∧
    (JVal.arr [.obj [("id", .str "B")],
               .obj [("id", .str "A"), ("bucket", .str "g1")]]) ≠
      (JVal.arr [.obj [("id", .str "A"), ("bucket", .str "g1")],
                 .obj [("id", .str "B")]]) := by
  refine ⟨rfl, ?_⟩
  intro h
  injection h with h
  injection h with h1 h2
  injection h1 with h1
  simp at h1

/-- Claim C3 (amended): for a configuration with a nonempty flat
`devices` list and a list of well-formed groups, the resolved device
list is the flat devices first, in declared order, followed by every
group member (groups in declared order, members in declared order,
with a truthy group bucket written onto each member). -/
theorem resolve_devices_order (cfg : List (String × JVal)) (ds gs : List JVal)
    (hdev : objLookup cfg "devices" = some (.arr ds)) (hds : ds ≠ [])
    (hgrp : objLookup cfg "groups" = some (.arr gs))
    (hwf : ∀ g ∈ gs, GroupWF g) :
    resolve_devices (.obj cfg) = .ok (.arr (ds ++ flattenGroups gs)) := by
  unfold resolve_devices
  rw [show pyGetOpt (.obj cfg) "groups" =
        .ok ((objLookup cfg "groups").getD .null) from rfl, hgrp]
  simp only [Option.getD_some, PyM.bind_ok]
  by_cases hgs : gs = []
  · subst hgs
    have : (JVal.arr ([] : List JVal)).truthy = false := rfl
    rw [this]
    simp [pyGetOpt, pyGetD, hdev, flattenGroups]
  · have htr : (JVal.arr gs).truthy = true := by
      cases gs with
      | nil => exact absurd rfl hgs
      | cons g rest => rfl
    rw [htr]
    simp only [if_true]
    rw [show pyGetOpt (.obj cfg) "devices" =
          .ok ((objLookup cfg "devices").getD .null) from rfl, hdev]
    simp only [Option.getD_some, PyM.bind_ok, pyIter]
    have htd : (JVal.arr ds).truthy = true := by
      cases ds with
      | nil => exact absurd rfl hds
      | cons d rest => rfl
    rw [htd]
    simp only [if_true]
    exact foldl_processGroup gs ds hwf

theorem resolve_devices_order_witness :
    resolve_devices
      (.obj [("devices", .arr [.obj [("id", .str "B")]]),
             ("groups", .arr [.obj [("bucket", .str "g1"),
               ("devices", .arr [.obj [("id", .str "A")]])]])]) =
      .ok (.arr ([.obj [("id", .str "B")]] ++
        flattenGroups [.obj [("bucket", .str "g1"),
          ("devices", .arr [.obj [("id", .str "A")]])]])) :=
  resolve_devices_order _ _ _ rfl (by simp) rfl
    (by
      intro g hg
      simp only [List.mem_singleton] at hg
      subst hg
      exact ⟨_, [.obj [("id", .str "A")]], rfl, rfl, by simp⟩)

/-- Counterexample to claim C4 as stated: a payload whose `status`
field is the integer `5` (not a container) makes the normalizer raise
`TypeError` (from `channel_key in status`) instead of returning the
malformed outcome (`None`). -/
theorem parse_status_scalar_type_error :
    parse_device_status (.obj [("online", .int 1), ("status", .int 5)]) (.obj [])
      = .error .typeError ∧
    parse_device_status (.obj [("online", .int 1), ("status", .int 5)]) (.obj [])
      ≠ .ok none := by
  refine ⟨rfl, ?_⟩
  intro h
  rw [show parse_device_status (.obj [("online", .int 1), ("status", .int 5)])
        (.obj []) = .error .typeError from rfl] at h
  exact Except.noConfusion h

/-- Claim C4 (amended): the normalizer returns the malformed outcome
(`None`) exactly for falsy raw payloads; a truthy payload whose
`status` field is a scalar (null, bool, int or float) instead raises a
`TypeError` that propagates out of the normalizer uncaught. -/
theorem parse_malformed_behavior :
    (∀ raw cfg : JVal, raw.truthy = false →
       parse_device_status raw cfg = .ok none) ∧
    (∀ (rkvs ckvs : List (String × JVal)) (stv : JVal),
       (objLookup rkvs "status").getD (.obj []) = stv →
       (stv = .null ∨ (∃ b, stv = .bool b) ∨ (∃ n, stv = .int n) ∨
         (∃ q, stv = .float q)) →
       parse_device_status (.obj rkvs) (.obj ckvs) = .error .typeError) := by
  constructor
  · intro raw cfg h
    unfold parse_device_status parse_device_status_frame
    rw [h]
    simp [PyM.bind]
  · intro rkvs ckvs stv hst hscalar
    have hne : rkvs ≠ [] := by
      intro hnil
      subst hnil
      simp [objLookup] at hst
      rcases hscalar with h | ⟨b, h⟩ | ⟨n, h⟩ | ⟨q, h⟩ <;> rw [← hst] at h <;>
        exact JVal.noConfusion h
    have htr : (JVal.obj rkvs).truthy = true := by
      cases rkvs with
      | nil => exact absurd rfl hne
      | cons p rest => rfl
    unfold parse_device_status parse_device_status_frame
    rw [htr]
    simp only [Bool.not_true, Bool.false_eq_true, if_false, pyGetD, PyM.bind_ok, hst]
    rcases hscalar with h | ⟨b, h⟩ | ⟨n, h⟩ | ⟨q, h⟩ <;> subst h <;> rfl

theorem parse_malformed_behavior_witness :
    parse_device_status (.obj []) (.obj []) = .ok none ∧
    parse_device_status (.obj [("online", .int 1), ("status", .bool true)]) (.obj [])
      = .error .typeError :=
  ⟨parse_malformed_behavior.1 (.obj []) (.obj []) rfl,
   parse_malformed_behavior.2 [("online", .int 1), ("status", .bool true)] [] (.bool true)
     rfl (Or.inr (Or.inl ⟨true, rfl⟩))⟩

/-- Claim C10: the normalizer builds a fresh result record and leaves
both inputs unchanged — every successful run returns the raw payload
map and the device configuration map exactly as received (the
statement-level translation threads both through every operation). -/
theorem parse_frame_inputs_unchanged (raw cfg : JVal)
    (t : Option ParseResult × JVal × JVal)
    (h : parse_device_status_frame raw cfg = .ok t) :
    t.2.1 = raw ∧ t.2.2 = cfg := by
  unfold parse_device_status_frame at h
  by_cases htr : raw.truthy
  · rw [htr] at h
    simp only [not_true, if_false] at h
    rw [PyM.bind_eq_ok] at h
    obtain ⟨onlineV, -, h⟩ := h
    rw [PyM.bind_eq_ok] at h
    obtain ⟨st, -, h⟩ := h
    rw [PyM.bind_eq_ok] at h
    obtain ⟨ch, -, h⟩ := h
    rw [PyM.bind_eq_ok] at h
    obtain ⟨b1, -, h⟩ := h
    cases b1 with
    | true =>
      simp only [if_true] at h
      rw [PyM.bind_eq_ok] at h
      obtain ⟨sw, -, h⟩ := h
      rw [PyM.bind_eq_ok] at h
      obtain ⟨r, -, h⟩ := h
      cases h
      exact ⟨rfl, rfl⟩
    | false =>
      simp only [Bool.false_eq_true, if_false] at h
      rw [PyM.bind_eq_ok] at h
      obtain ⟨b2, -, h⟩ := h
      cases b2 with
      | true =>
        simp only [if_true] at h
        rw [PyM.bind_eq_ok] at h
        obtain ⟨r, -, h⟩ := h
        cases h
        exact ⟨rfl, rfl⟩
      | false =>
        simp only [Bool.false_eq_true, if_false] at h
        rw [PyM.bind_eq_ok] at h
        obtain ⟨b3, -, h⟩ := h
        cases b3 with
        | true =>
          simp only [if_true] at h
          rw [PyM.bind_eq_ok] at h
          obtain ⟨cv, -, h⟩ := h
          rw [PyM.bind_eq_ok] at h
          obtain ⟨r, -, h⟩ := h
          cases h
          exact ⟨rfl, rfl⟩
        | false =>
          simp only [Bool.false_eq_true, if_false] at h
          rw [PyM.bind_eq_ok] at h
          obtain ⟨b4, -, h⟩ := h
          cases b4 with
          | true =>
            simp only [if_true] at h
            rw [PyM.bind_eq_ok] at h
            obtain ⟨lt, -, h⟩ := h
            rw [PyM.bind_eq_ok] at h
            obtain ⟨r, -, h⟩ := h
            cases h
            exact ⟨rfl, rfl⟩
          | false =>
            simp only [Bool.false_eq_true, if_false] at h
            cases h
            exact ⟨rfl, rfl⟩
  · simp only [Bool.not_eq_true] at htr
    rw [htr] at h
    simp only [Bool.false_eq_true, not_false_eq_true, if_true] at h
    cases h
    exact ⟨rfl, rfl⟩

theorem parse_frame_inputs_unchanged_witness :
    ((some { online := true, output := JVal.bool false, power := 0, energy := 0,
             voltage := none, current := none, temperature := none : ParseResult },
      JVal.obj [("online", .int 1)], JVal.obj []) :
        Option ParseResult × JVal × JVal).2.1 = .obj [("online", .int 1)] ∧
    ((some { online := true, output := JVal.bool false, power := 0, energy := 0,
             voltage := none, current := none, temperature := none : ParseResult },
      JVal.obj [("online", .int 1)], JVal.obj []) :
        Option ParseResult × JVal × JVal).2.2 = .obj [] :=
  parse_frame_inputs_unchanged (.obj [("online", .int 1)]) (.obj []) _ rfl

/-- Claim C7: the normalizer dispatches on capability keys in the fixed
priority order `switch:<channel>`, `relays`, `cover:0`, `light:0`, and
exactly the first matching branch populates the metric — restricting
the status dict to the keys the winning branch reads does not change
the result; when no branch matches every metric field keeps its
default; and every successful result's online flag equals the Python
comparison of the top-level `online` field with the integer 1. -/
theorem parse_dispatch_priority (rkvs skvs ckvs : List (String × JVal))
    (o ch : JVal) (key : String)
    (hst : objLookup rkvs "status" = some (.obj skvs))
    (ho : o = (objLookup rkvs "online").getD (.int 0))
    (hch : ch = (objLookup ckvs "channel").getD (.int 0))
    (hkey : key = "switch:" ++ pyStr ch) :
    (∀ r, parse_device_status (.obj rkvs) (.obj ckvs) = .ok (some r) →
       r.online = pyEqOne o) ∧
    (objLookup skvs key ≠ none →
       parse_device_status (.obj rkvs) (.obj ckvs) =
         parse_device_status
           (.obj [("online", o), ("status", .obj (filterKeys skvs [key]))])
           (.obj ckvs)) ∧
    (objLookup skvs key = none → objLookup skvs "relays" ≠ none →
       parse_device_status (.obj rkvs) (.obj ckvs) =
         parse_device_status
           (.obj [("online", o),
                  ("status", .obj (filterKeys skvs ["relays", "meters", "tmp"]))])
           (.obj ckvs)) ∧
    (objLookup skvs key = none → objLookup skvs "relays" = none →
     objLookup skvs "cover:0" ≠ none →
       parse_device_status (.obj rkvs) (.obj ckvs) =
         parse_device_status
           (.obj [("online", o), ("status", .obj (filterKeys skvs ["cover:0"]))])
           (.obj ckvs)) ∧
    (objLookup skvs key = none → objLookup skvs "relays" = none →
     objLookup skvs "cover:0" = none → objLookup skvs "light:0" ≠ none →
       parse_device_status (.obj rkvs) (.obj ckvs) =
         parse_device_status
           (.obj [("online", o), ("status", .obj (filterKeys skvs ["light:0"]))])
           (.obj ckvs)) ∧
    (objLookup skvs key = none → objLookup skvs "relays" = none →
     objLookup skvs "cover:0" = none → objLookup skvs "light:0" = none →
       parse_device_status (.obj rkvs) (.obj ckvs) =
         .ok (some (initResult (pyEqOne o)))) := by
  subst ho hch hkey
  have hne := objLookup_ne_nil hst
  refine ⟨?_, ?_, ?_, ?_, ?_, ?_⟩
  · -- online flag of every successful parse
    intro r h
    cases hswq : objLookup skvs
        ("switch:" ++ pyStr ((objLookup ckvs "channel").getD (.int 0))) with
    | some x =>
      rw [parse_obj_status_switch rkvs skvs ckvs x hst hswq, PyM.bind_eq_ok] at h
      obtain ⟨r', hr', heq⟩ := h
      injection heq with heq
      injection heq with heq
      rw [← heq]
      exact switchBranch_online hr'
    | none =>
      cases hrelq : objLookup skvs "relays" with
      | some y =>
        rw [parse_obj_status_relays rkvs skvs ckvs y hst hswq hrelq,
          PyM.bind_eq_ok] at h
        obtain ⟨r', hr', heq⟩ := h
        injection heq with heq
        injection heq with heq
        rw [← heq]
        exact relaysBranch_online hr'
      | none =>
        cases hcovq : objLookup skvs "cover:0" with
        | some z =>
          rw [parse_obj_status_cover rkvs skvs ckvs z hst hswq hrelq hcovq,
            PyM.bind_eq_ok] at h
          obtain ⟨r', hr', heq⟩ := h
          injection heq with heq
          injection heq with heq
          rw [← heq]
          exact coverBranch_online hr'
        | none =>
          cases hligq : objLookup skvs "light:0" with
          | some w =>
            rw [parse_obj_status_light rkvs skvs ckvs w hst hswq hrelq hcovq hligq,
              PyM.bind_eq_ok] at h
            obtain ⟨r', hr', heq⟩ := h
            injection heq with heq
            injection heq with heq
            rw [← heq]
            exact lightBranch_online hr'
          | none =>
            rw [parse_obj_status_nomatch rkvs skvs ckvs hne (by rw [hst]; rfl)
              hswq hrelq hcovq hligq] at h
            injection h with h
            injection h with h
            rw [← h]
            rfl
  · -- switch branch wins and reads only its own entry
    intro hb
    cases hswq : objLookup skvs
        ("switch:" ++ pyStr ((objLookup ckvs "channel").getD (.int 0))) with
    | none => exact absurd hswq hb
    | some x =>
      rw [parse_obj_status_switch rkvs skvs ckvs x hst hswq,
        parse_obj_status_switch
          [("online", (objLookup rkvs "online").getD (.int 0)),
           ("status", .obj (filterKeys skvs
             ["switch:" ++ pyStr ((objLookup ckvs "channel").getD (.int 0))]))]
          (filterKeys skvs
             ["switch:" ++ pyStr ((objLookup ckvs "channel").getD (.int 0))])
          ckvs x rfl
          (by rw [objLookup_filterKeys]; simp [hswq])]
      rfl
  · -- relays branch wins and reads only relays, meters, tmp
    intro h1 h2
    cases hrelq : objLookup skvs "relays" with
    | none => exact absurd hrelq h2
    | some y =>
      rw [parse_obj_status_relays rkvs skvs ckvs y hst h1 hrelq,
        parse_obj_status_relays
          [("online", (objLookup rkvs "online").getD (.int 0)),
           ("status", .obj (filterKeys skvs ["relays", "meters", "tmp"]))]
          (filterKeys skvs ["relays", "meters", "tmp"])
          ckvs y rfl
          (by rw [objLookup_filterKeys]; split
              · exact h1
              · rfl)
          (by rw [objLookup_filterKeys]; simp [hrelq]),
        relaysBranch_congr
          ((objLookup ckvs "channel").getD (.int 0))
          (initResult (pyEqOne ((objLookup rkvs "online").getD (.int 0))))
          (show objLookup skvs "relays" =
            objLookup (filterKeys skvs ["relays", "meters", "tmp"]) "relays" by
              rw [objLookup_filterKeys]; simp)
          (show objLookup skvs "meters" =
            objLookup (filterKeys skvs ["relays", "meters", "tmp"]) "meters" by
              rw [objLookup_filterKeys]; simp)
          (show objLookup skvs "tmp" =
            objLookup (filterKeys skvs ["relays", "meters", "tmp"]) "tmp" by
              rw [objLookup_filterKeys]; simp)]
      rfl
  · -- cover branch wins and reads only cover:0
    intro h1 h2 h3
    cases hcovq : objLookup skvs "cover:0" with
    | none => exact absurd hcovq h3
    | some z =>
      rw [parse_obj_status_cover rkvs skvs ckvs z hst h1 h2 hcovq,
        parse_obj_status_cover
          [("online", (objLookup rkvs "online").getD (.int 0)),
           ("status", .obj (filterKeys skvs ["cover:0"]))]
          (filterKeys skvs ["cover:0"])
          ckvs z rfl
          (by rw [objLookup_filterKeys]; split
              · exact h1
              · rfl)
          (by rw [objLookup_filterKeys]; split
              · exact h2
              · rfl)
          (by rw [objLookup_filterKeys]; simp [hcovq])]
      rfl
  · -- light branch wins and reads only light:0
    intro h1 h2 h3 h4
    cases hligq : objLookup skvs "light:0" with
    | none => exact absurd hligq h4
    | some w =>
      rw [parse_obj_status_light rkvs skvs ckvs w hst h1 h2 h3 hligq,
        parse_obj_status_light
          [("online", (objLookup rkvs "online").getD (.int 0)),
           ("status", .obj (filterKeys skvs ["light:0"]))]
          (filterKeys skvs ["light:0"])
          ckvs w rfl
          (by rw [objLookup_filterKeys]; split
              · exact h1
              · rfl)
          (by rw [objLookup_filterKeys]; split
              · exact h2
              · rfl)
          (by rw [objLookup_filterKeys]; split
              · exact h3
              · rfl)
          (by rw [objLookup_filterKeys]; simp [hligq])]
      rfl
  · -- no capability key: every metric field keeps its default
    intro h1 h2 h3 h4
    exact parse_obj_status_nomatch rkvs skvs ckvs hne (by rw [hst]; rfl)
      h1 h2 h3 h4

theorem parse_dispatch_priority_witness :
    parse_device_status
      (.obj [("online", .int 1),
             ("status", .obj [("switch:0", .obj []),
                              ("relays", .arr [.obj [("ison", .bool true)]])])])
      (.obj []) =
    parse_device_status
      (.obj [("online", .int 1),
             ("status", .obj (filterKeys
               [("switch:0", .obj []),
                ("relays", .arr [.obj [("ison", .bool true)]])] ["switch:0"]))])
      (.obj []) :=
  (parse_dispatch_priority
      [("online", .int 1),
       ("status", .obj [("switch:0", .obj []),
                        ("relays", .arr [.obj [("ison", .bool true)]])])]
      [("switch:0", .obj []), ("relays", .arr [.obj [("ison", .bool true)]])]
      [] (.int 1) (.int 0) "switch:0" rfl rfl rfl rfl).2.1
    (by simp [objLookup])

/-- Counterexample to claim C6 as stated: a payload whose
`switch:0` entry is a dict with no `aenergy`/`voltage`/`current`/
`temperature` sub-fields but whose `apower` is a list makes
normalization raise `TypeError` (`float([])`) instead of succeeding. -/
theorem parse_switch_apower_list_raises :
    parse_device_status
      (.obj [("online", .int 1),
             ("status", .obj [("switch:0", .obj [("apower", .arr [])])])])
      (.obj []) = .error .typeError ∧
    ∀ r : ParseResult,
      parse_device_status
        (.obj [("online", .int 1),
               ("status", .obj [("switch:0", .obj [("apower", .arr [])])])])
        (.obj []) ≠ .ok (some r) := by
  refine ⟨rfl, ?_⟩
  intro r h
  rw [show parse_device_status
        (.obj [("online", .int 1),
               ("status", .obj [("switch:0", .obj [("apower", .arr [])])])])
        (.obj []) = .error .typeError from rfl] at h
  exact Except.noConfusion h

/-- Claim C6 (amended): for every raw payload whose status dict has a
`switch:<channel>` entry that is itself a dict with no `aenergy`,
`voltage`, `current` or `temperature` keys and whose `apower`, when
present, is null or numeric (int, float or bool), normalization
succeeds with `energy = 0`, `voltage = none`, `current = none`,
`temperature = none`; and when `apower` is present but null the
normalized power is exactly 0. -/
theorem parse_switch_minimal_payload
    (rkvs skvs swkvs ckvs : List (String × JVal))
    (hst : objLookup rkvs "status" = some (.obj skvs))
    (hsw : objLookup skvs
        ("switch:" ++ pyStr ((objLookup ckvs "channel").getD (.int 0)))
        = some (.obj swkvs))
    (hae : objLookup swkvs "aenergy" = none)
    (hvo : objLookup swkvs "voltage" = none)
    (hcu : objLookup swkvs "current" = none)
    (hte : objLookup swkvs "temperature" = none)
    (hap : objLookup swkvs "apower" = none ∨
           objLookup swkvs "apower" = some .null ∨
           (∃ n, objLookup swkvs "apower" = some (.int n)) ∨
           (∃ q, objLookup swkvs "apower" = some (.float q)) ∨
           (∃ b, objLookup swkvs "apower" = some (.bool b))) :
    ∃ r, parse_device_status (.obj rkvs) (.obj ckvs) = .ok (some r) ∧
      r.energy = 0 ∧ r.voltage = none ∧ r.current = none ∧
      r.temperature = none ∧
      (objLookup swkvs "apower" = some .null → r.power = 0) := by
  rw [parse_obj_status_switch rkvs skvs ckvs (.obj swkvs) hst hsw]
  unfold switchBranch
  simp only [pyGetD, pyGetOpt, PyM.bind_ok, hae, hvo, hcu, hte, Option.getD_none,
    JVal.isNull, if_true, if_false]
  rcases hap with h | h | ⟨n, h⟩ | ⟨q, h⟩ | ⟨b, h⟩ <;> rw [h] <;>
    simp only [Option.getD_some, Option.getD_none, JVal.isNull, pyFloat,
      PyM.bind_ok, if_true, if_false, JVal.truthy, Bool.not_true,
      Bool.false_eq_true] <;>
    refine ⟨_, rfl, rfl, rfl, rfl, rfl, ?_⟩
  · intro hcontra
    exact Option.noConfusion hcontra
  · intro _
    rfl
  · intro hcontra
    injection hcontra with hcontra
    exact JVal.noConfusion hcontra
  · intro hcontra
    injection hcontra with hcontra
    exact JVal.noConfusion hcontra
  · intro hcontra
    injection hcontra with hcontra
    exact JVal.noConfusion hcontra

theorem parse_switch_minimal_payload_witness :
    ∃ r, parse_device_status
        (.obj [("online", .int 1),
               ("status", .obj [("switch:0", .obj [("apower", .null)])])])
        (.obj []) = .ok (some r) ∧
      r.energy = 0 ∧ r.voltage = none ∧ r.current = none ∧
      r.temperature = none ∧
      (objLookup [("apower", JVal.null)] "apower" = some .null → r.power = 0) :=
  parse_switch_minimal_payload
    [("online", .int 1), ("status", .obj [("switch:0", .obj [("apower", .null)])])]
    [("switch:0", .obj [("apower", .null)])]
    [("apower", .null)]
    [] rfl rfl rfl rfl rfl rfl (Or.inr (Or.inl rfl))

/-- Counterexample to claim C1 as stated: polling two devices where
device `A` yields a malformed (falsy) status payload and device `B` is
unreachable emits no point at all for `A` — only `B`'s offline point —
although the claim requires exactly one emitted point per device.
Iteration does continue past `A` (the cycle finishes without error). -/
theorem poll_cycle_malformed_drops_point :
    poll_all_devices
      (fun did => match did with
        | .str "idA" => some (.obj [])
        | _ => none)
      (fun _ _ => true) (.str "default")
      [.obj [("id", .str "idA"), ("name", .str "A")],
       .obj [("id", .str "idB"), ("name", .str "B")]] =
    ([(.str "default",
       mkOfflinePoint (.str "B") (.str "idB") (.str "unknown"), true)],
     none) := rfl

/-- Claim C1 (amended): per-device behavior of one poll cycle.  An
unreachable device gets exactly one offline write attempt, which aborts
the cycle only when that unprotected write fails; a malformed (falsy)
status payload yields no write attempt for that device but no error
either; a successfully parsed payload yields exactly one write attempt
whose failure is caught; and whenever a device's `log_device_status`
raises no error, the cycle continues with the remaining devices. -/
theorem poll_cycle_per_device_behavior
    (fetch : JVal → Option JVal) (wOk : JVal → Point → Bool)
    (dflt device : JVal) (kvs : List (String × JVal))
    (hdev : device = .obj kvs)
    (did dname : JVal)
    (hid : objLookup kvs "id" = some did)
    (hname : objLookup kvs "name" = some dname) :
    (fetch did = none →
      ∃ b pt, log_device_status fetch wOk dflt device =
        ([(b, pt, wOk b pt)], if wOk b pt then none else some .ioError)) ∧
    (∀ ds, fetch did = some ds → parse_device_status ds device = .ok none →
      log_device_status fetch wOk dflt device = ([], none)) ∧
    (∀ ds r, fetch did = some ds →
      parse_device_status ds device = .ok (some r) →
      ∃ b pt, log_device_status fetch wOk dflt device =
        ([(b, pt, wOk b pt)], none)) ∧
    (∀ rest, (log_device_status fetch wOk dflt device).2 = none →
      poll_all_devices fetch wOk dflt (device :: rest) =
        ((log_device_status fetch wOk dflt device).1 ++
           (poll_all_devices fetch wOk dflt rest).1,
         (poll_all_devices fetch wOk dflt rest).2)) := by
  subst hdev
  refine ⟨?_, ?_, ?_, ?_⟩
  · intro hf
    refine ⟨(objLookup kvs "bucket").getD dflt,
      mkOfflinePoint dname did ((objLookup kvs "type").getD (.str "unknown")), ?_⟩
    unfold log_device_status
    simp only [pyIndexStr, pyGetD, hid, hname, hf]
    by_cases hw : wOk ((objLookup kvs "bucket").getD dflt)
        (mkOfflinePoint dname did ((objLookup kvs "type").getD (.str "unknown")))
    · simp [hw]
    · simp [hw]
  · intro ds hf hparse
    unfold log_device_status
    simp only [pyIndexStr, pyGetD, hid, hname, hf, hparse]
  · intro ds r hf hparse
    refine ⟨(objLookup kvs "bucket").getD dflt,
      mkSuccessPoint dname did ((objLookup kvs "type").getD (.str "unknown")) r, ?_⟩
    unfold log_device_status
    simp only [pyIndexStr, pyGetD, hid, hname, hf, hparse]
  · intro rest h2
    cases hlog : log_device_status fetch wOk dflt (.obj kvs) with
    | mk es err =>
      rw [hlog] at h2
      obtain rfl : err = none := h2
      simp only [poll_all_devices, hlog]

theorem poll_cycle_per_device_behavior_witness :
    ∃ b pt, log_device_status (fun _ => none) (fun _ _ => true) (.str "d")
        (.obj [("id", .str "x"), ("name", .str "N")]) =
      ([(b, pt, true)], none) :=
  (poll_cycle_per_device_behavior (fun _ => none) (fun _ _ => true) (.str "d")
      _ [("id", .str "x"), ("name", .str "N")] rfl (.str "x") (.str "N")
      rfl rfl).1 rfl
